import Mathlib

/-!
Shallow embedding of the core logic of `src/DogDetect2.py`:
the detection-result aggregator (notification throttling, archiving,
manual capture), the motion-gated region selector (sticky ROI and crop
window), the main capture loop's night-mode hysteresis, cadence reseed
and locked-loop delays, and the watchdog petting loop.

Python floats are modelled as rationals; `int(...)` truncation toward
zero is modelled by `pytrunc`; tick counts and times are rationals.
-/

namespace DogDetect

/-- Python `int(x)`: truncation toward zero. -/
def pytrunc (q : ℚ) : ℤ := if 0 ≤ q then ⌊q⌋ else -⌊-q⌋

/-! ### Configuration constants (DogDetect2.py lines 161-190) -/

def WATCH_DOG_PET_INTERVAL : ℚ := 5

def TIME_BETWEEN_MESSAGES : ℚ := 30

def IM_WIDTH : ℤ := 2032

def IM_HEIGHT : ℤ := 608

def FILTER_SCALE : ℤ := 4

def FOCUS_SENSITIVITY : ℤ := 70

def PHASES : ℕ := 3

def NIGHT_MODE_ON_THRESH : ℚ := 4

def NIGHT_MODE_OFF_THRESH : ℚ := 16

def NIGHT_MODE_FRAME_SLOWDOWN : ℚ := 60

/-- Sensitivity floor `focusSensitivity` (line 208):
`int(50 / (FOCUS_SENSITIVITY * FOCUS_SENSITIVITY) * (IM_HEIGHT * IM_WIDTH) / (FILTER_SCALE * FILTER_SCALE))`. -/
def focusSensitivity : ℤ :=
  pytrunc (50 / ((FOCUS_SENSITIVITY : ℚ) * (FOCUS_SENSITIVITY : ℚ))
    * ((IM_HEIGHT : ℚ) * (IM_WIDTH : ℚ)) / ((FILTER_SCALE : ℚ) * (FILTER_SCALE : ℚ)))

/-! ### Main capture loop: night-mode hysteresis and cadence reseed
(DogDetect2.py lines 620-629) -/

/-- The scheduler's cadence state touched by the night-mode update:
`frameTotal`, `avgTime` and the `nightMode` flag. -/
structure CadState where
  frameTotal : ℕ
  avgTime : ℚ
  night : Bool
deriving Repr, DecidableEq

/-- Lines 623-629 of the main loop: hysteresis update of `nightMode`
from the measured mean luma, with the cadence reseed on the on-to-off
transition (`frameTotal = frameTotal % PHASES + PHASES`, `avgTime = 0.5`). -/
def nightUpdate (s : CadState) (luma : ℚ) : CadState :=
  if luma < NIGHT_MODE_ON_THRESH ∧ s.night = false then
    { s with night := true }
  else if NIGHT_MODE_OFF_THRESH < luma ∧ s.night = true then
    { frameTotal := s.frameTotal % PHASES + PHASES, avgTime := 1/2, night := false }
  else s

/-! ### Main capture loop: per-cycle sleeps (DogDetect2.py lines 636-646) -/

/-- The fixed warm-up sleep `sleep(0.25)` (line 638). -/
def WARMUP_SLEEP : ℚ := 1/4

/-- The locked-loop corrective sleeps of a steady-state cycle
(lines 643-644): `if deltaTime < 0.75 * avgTime: sleep(0.9*(avgTime-deltaTime))`. -/
def correctiveSleeps (avgTime deltaTime : ℚ) : List ℚ :=
  if deltaTime < 3/4 * avgTime then [9/10 * (avgTime - deltaTime)] else []

/-- The ordered list of sleeps the main loop performs in one cycle
(lines 636-646): warm-up cycles (`frameTotal < PHASES`) sleep the fixed
interval; steady cycles perform the locked-loop correction and then,
if `nightMode`, the night slowdown sleep. -/
def cycleSleeps (frameTotal : ℕ) (night : Bool) (avgTime deltaTime : ℚ) : List ℚ :=
  if frameTotal < PHASES then [WARMUP_SLEEP]
  else correctiveSleeps avgTime deltaTime
    ++ (if night then [NIGHT_MODE_FRAME_SLOWDOWN] else [])

/-! ### Detection-result aggregator (DogDetect2.py lines 454-527)

The tail of `object_detector`, after the per-detection loop has computed
the confidence-filtered `cat` / `dog` presence flags: message selection,
notification throttling against `imageLastSent`, local archiving of
throttled frames, and the manual-capture dispatch. Times are tick counts
(`cv2.getTickCount()`), `freq` is the tick frequency. -/

/-- Aggregator state persisted across frames (globals of `object_detector`). -/
structure AggState where
  catOrDogSeen : ℚ
  catOrDogLastSeen : ℚ
  imageLastSent : ℚ
  dogImageCount : ℕ
  catImageCount : ℕ
deriving Repr, DecidableEq

/-- Observable side effects of one aggregator pass: whether the sprinkler
thread was started, whether the detection notification was dispatched,
the archive write (species label of the filename and the counter value
embedded in it), and whether the manual-capture notification was sent. -/
structure AggEvents where
  sprinkler : Bool
  dispatched : Bool
  archived : Option (String × ℕ)
  manualDispatched : Bool
deriving Repr, DecidableEq

/-- Message label selection (lines 479-484): `"Dog and Cat"`, `"Dog"`,
`"Cat"` in that precedence. -/
def messageObject (cat dog : Bool) : String :=
  if dog && cat then "Dog and Cat" else if dog then "Dog" else "Cat"

/-- One aggregator pass (lines 478-527). `now` is `cv2.getTickCount()`
taken at line 486. The dispatch test is
`(catOrDogSeen - imageLastSent) > TIME_BETWEEN_MESSAGES * freq` with
`catOrDogSeen` just set to `now`; on dispatch `imageLastSent = catOrDogSeen`.
A throttled frame is archived under `f"{messageObject}_{dogImageCount}.jpg"`
(line 511 uses `dogImageCount` for both species), then the counter of the
present species is incremented mod 100. The manual-capture branch
(lines 518-527) dispatches whenever `imageCapture` is set and touches no
state. -/
def aggStep (freq now : ℚ) (cat dog imageCapture : Bool) (s : AggState) :
    AggState × AggEvents :=
  if cat || dog then
    let s1 : AggState :=
      { s with catOrDogLastSeen := s.catOrDogSeen, catOrDogSeen := now }
    if TIME_BETWEEN_MESSAGES * freq < now - s.imageLastSent then
      ({ s1 with imageLastSent := now },
       { sprinkler := true, dispatched := true, archived := none,
         manualDispatched := imageCapture })
    else
      ((if dog then { s1 with dogImageCount := (s1.dogImageCount + 1) % 100 }
        else { s1 with catImageCount := (s1.catImageCount + 1) % 100 }),
       { sprinkler := false, dispatched := false,
         archived := some (messageObject cat dog, s.dogImageCount),
         manualDispatched := imageCapture })
  else
    (s, { sprinkler := false, dispatched := false, archived := none,
          manualDispatched := imageCapture })

/-- Initial aggregator state (lines 222-224, 591-592):
`catOrDogSeen = TIME_BETWEEN_MESSAGES * freq`, the rest zero. -/
def aggInit (freq : ℚ) : AggState :=
  { catOrDogSeen := TIME_BETWEEN_MESSAGES * freq, catOrDogLastSeen := 0,
    imageLastSent := 0, dogImageCount := 0, catImageCount := 0 }

/-! ### Motion-gated region selector (DogDetect2.py lines 404-419) -/

/-- Sticky ROI state: the bounding rectangle `(refX, refY, refW, refH)`
and `lastActiveTime`, all globals of `object_detector`. -/
structure RoiState where
  refX : ℤ
  refY : ℤ
  refW : ℤ
  refH : ℤ
  lastActiveTime : ℤ
deriving Repr, DecidableEq

/-- The largest motion contour handed to the ROI update: its area
(`cv2.contourArea`, a float) and its bounding rectangle. -/
structure MContour where
  area : ℚ
  x : ℤ
  y : ℤ
  w : ℤ
  h : ℤ
deriving Repr, DecidableEq

/-- Lines 404-409: iterate over the (at most one) largest contour; if its
area exceeds `focusSensitivity`, adopt its bounding rectangle as the
sticky ROI and stamp `lastActiveTime`; otherwise leave the state alone. -/
def roiUpdate (s : RoiState) (c : Option MContour) (now : ℤ) : RoiState :=
  match c with
  | none => s
  | some c =>
      if (focusSensitivity : ℚ) < c.area then
        { refX := c.x, refY := c.y, refW := c.w, refH := c.h,
          lastActiveTime := now }
      else s

/-- Fold `roiUpdate` over a sequence of frames, each contributing its
largest contour (or none) and its tick time. -/
def roiRun (s : RoiState) (l : List (Option MContour × ℤ)) : RoiState :=
  l.foldl (fun s p => roiUpdate s p.1 p.2) s

/-- Crop width `searchWidth = int(IM_HEIGHT * 1.0)` (line 412). -/
def searchWidth : ℤ := pytrunc ((IM_HEIGHT : ℚ) * 1)

/-- Crop offset `searchOffset = max(0, int((refX + refW/2) * FILTER_SCALE - searchWidth/2))`
(line 413): the left edge of the detection crop window. -/
def searchOffset (refX refW : ℤ) : ℤ :=
  max 0 (pytrunc (((refX : ℚ) + (refW : ℚ) / 2) * (FILTER_SCALE : ℚ)
    - (searchWidth : ℚ) / 2))

/-! ### Watchdog petting loop (DogDetect2.py lines 557-573) -/

/-- Shift period `int(3 * NIGHT_MODE_FRAME_SLOWDOWN / WATCH_DOG_PET_INTERVAL)` (line 570):
the pet-count period of the snapshot shift. -/
def wdK : ℕ :=
  (pytrunc (3 * NIGHT_MODE_FRAME_SLOWDOWN / WATCH_DOG_PET_INTERVAL)).toNat

/-- Watchdog loop state: the two buffered heartbeat snapshots
(`lastKeepAlive`, `bufferedKeepAlive`) and `petCounter`. -/
structure WdState where
  lastKA : ℤ
  bufKA : ℤ
  petCounter : ℕ
deriving Repr, DecidableEq

/-- One iteration of the `while True` loop (lines 562-573) given the
current value `ka` of the shared `keepAlive` counter: pet (and bump
`petCounter`) iff `ka` differs from the older snapshot `lastKeepAlive`;
then, if `petCounter` is a multiple of `wdK`, shift the snapshots
(older from newer, newer from current). Returns the new state and
whether this tick petted. -/
def wdStep (ka : ℤ) (s : WdState) : WdState × Bool :=
  let pet : Bool := ka ≠ s.lastKA
  let pc : ℕ := if pet then s.petCounter + 1 else s.petCounter
  (if pc % wdK = 0 then { lastKA := s.bufKA, bufKA := ka, petCounter := pc }
   else { s with petCounter := pc }, pet)

/-- Loop state before tick `t`, fed by the heartbeat trace `hb`
(the value of `keepAlive` observed at each tick). Initial state from
lines 558-560: `lastKeepAlive = -1`, `bufferedKeepAlive = -1`,
`petCounter = 1`. -/
def wdRun (hb : ℕ → ℤ) : ℕ → WdState
  | 0 => { lastKA := -1, bufKA := -1, petCounter := 1 }
  | t + 1 => (wdStep (hb t) (wdRun hb t)).1

/-- Whether the monitor pets the watchdog at tick `t`. -/
def wdPet (hb : ℕ → ℤ) (t : ℕ) : Bool := (wdStep (hb t) (wdRun hb t)).2

/-- The constant-zero heartbeat trace: a heartbeat that never advances. -/
def constHeartbeat : ℕ → ℤ := fun _ => 0

/-! ### Helper lemmas -/

theorem focusSensitivity_eq : focusSensitivity = 787 := by
  norm_num [focusSensitivity, pytrunc, FOCUS_SENSITIVITY, IM_HEIGHT, IM_WIDTH, FILTER_SCALE]

theorem wdK_eq : wdK = 36 := by
  norm_num [wdK, pytrunc, NIGHT_MODE_FRAME_SLOWDOWN, WATCH_DOG_PET_INTERVAL]
  rfl

theorem searchWidth_eq : searchWidth = 608 := by
  norm_num [searchWidth, pytrunc, IM_HEIGHT]

/-! ### Claim theorems -/

/-- Claim C3: in a steady-state cycle, an elapsed time strictly below 75%
of the running average induces a sleep of exactly 90% of the shortfall
`0.9 * (avgTime - deltaTime)`; an elapsed time at or above 75% of the
average induces no corrective delay; and the loop only ever adds
(nonnegative) delay, never removes it. -/
theorem locked_loop_correction (frameTotal : ℕ) (night : Bool) (avgTime deltaTime : ℚ)
    (hsteady : PHASES ≤ frameTotal) :
    (deltaTime < 3/4 * avgTime →
      correctiveSleeps avgTime deltaTime = [9/10 * (avgTime - deltaTime)]) ∧
    (3/4 * avgTime ≤ deltaTime → correctiveSleeps avgTime deltaTime = []) ∧
    (0 ≤ avgTime → ∀ x ∈ cycleSleeps frameTotal night avgTime deltaTime, 0 ≤ x) ∧
    cycleSleeps frameTotal night avgTime deltaTime =
      correctiveSleeps avgTime deltaTime
        ++ (if night then [NIGHT_MODE_FRAME_SLOWDOWN] else []) := by
  refine ⟨?_, ?_, ?_, ?_⟩
  · intro h
    simp [correctiveSleeps, h]
  · intro h
    simp [correctiveSleeps, not_lt.mpr h]
  · intro ha x hx
    unfold cycleSleeps at hx
    rw [if_neg (not_lt.mpr hsteady)] at hx
    rcases List.mem_append.mp hx with h | h
    · unfold correctiveSleeps at h
      split_ifs at h with hc
      · rcases List.mem_singleton.mp h with rfl
        nlinarith
      · exact absurd h (List.not_mem_nil x)
    · split_ifs at h with hn
      · rcases List.mem_singleton.mp h with rfl
        norm_num [NIGHT_MODE_FRAME_SLOWDOWN]
      · exact absurd h (List.not_mem_nil x)
  · unfold cycleSleeps
    rw [if_neg (not_lt.mpr hsteady)]

/-- Witness for C3 at a steady cycle with `avgTime = 1`, `deltaTime = 1/2`. -/
theorem locked_loop_correction_witness :
    PHASES ≤ 3 ∧ ((1:ℚ)/2 < 3/4 * 1) ∧
    correctiveSleeps 1 (1/2) = [9/10 * ((1:ℚ) - 1/2)] :=
  ⟨by norm_num [PHASES], by norm_num,
    (locked_loop_correction 3 false 1 (1/2) (by norm_num [PHASES])).1 (by norm_num)⟩

/-- Claim C4: the NIGHT flag turns on from off exactly on luma strictly
below `NIGHT_MODE_ON_THRESH`, turns off from on exactly on luma strictly
above `NIGHT_MODE_OFF_THRESH`, any luma between the two thresholds
(inclusive) leaves the flag unchanged in either state, and the
off-threshold is strictly higher than the on-threshold. -/
theorem night_mode_hysteresis (s : CadState) (luma : ℚ) :
    (s.night = false →
      ((nightUpdate s luma).night = true ↔ luma < NIGHT_MODE_ON_THRESH)) ∧
    (s.night = true →
      ((nightUpdate s luma).night = false ↔ NIGHT_MODE_OFF_THRESH < luma)) ∧
    (NIGHT_MODE_ON_THRESH ≤ luma → luma ≤ NIGHT_MODE_OFF_THRESH →
      (nightUpdate s luma).night = s.night) ∧
    NIGHT_MODE_ON_THRESH < NIGHT_MODE_OFF_THRESH := by
  refine ⟨?_, ?_, ?_, by norm_num [NIGHT_MODE_ON_THRESH, NIGHT_MODE_OFF_THRESH]⟩
  · intro hoff
    unfold nightUpdate
    split_ifs with h1 h2
    · simp [h1.1]
    · exact absurd h2.2 (by simp [hoff])
    · simp only [hoff] at h1 ⊢
      simp only [and_true, not_lt] at h1
      simp [not_lt.mpr h1]
  · intro hon
    unfold nightUpdate
    split_ifs with h1 h2
    · exact absurd h1.2 (by simp [hon])
    · simp [h2.1]
    · simp only [hon] at h2 ⊢
      simp only [and_true, not_lt] at h2
      simp [hon, not_lt.mpr h2]
  · intro hlo hhi
    unfold nightUpdate
    have h1 : ¬(luma < NIGHT_MODE_ON_THRESH ∧ s.night = false) := by
      intro h
      exact absurd hlo (not_le.mpr h.1)
    have h2 : ¬(NIGHT_MODE_OFF_THRESH < luma ∧ s.night = true) := by
      intro h
      exact absurd hhi (not_le.mpr h.1)
    rw [if_neg h1, if_neg h2]

/-- Witness for C4: from night off with luma 10 (inside the hysteresis
band) the flag stays off. -/
theorem night_mode_hysteresis_witness :
    (⟨5, 1, false⟩ : CadState).night = false ∧
    NIGHT_MODE_ON_THRESH ≤ 10 ∧ (10:ℚ) ≤ NIGHT_MODE_OFF_THRESH ∧
    (nightUpdate ⟨5, 1, false⟩ 10).night = (⟨5, 1, false⟩ : CadState).night :=
  ⟨rfl, by norm_num [NIGHT_MODE_ON_THRESH], by norm_num [NIGHT_MODE_OFF_THRESH],
    (night_mode_hysteresis ⟨5, 1, false⟩ 10).2.2.1
      (by norm_num [NIGHT_MODE_ON_THRESH]) (by norm_num [NIGHT_MODE_OFF_THRESH])⟩

/-- Counterexample to C8: on night-mode exit with `frameTotal = 7` the
lap counter is folded to `7 % 3 + 3 = 4`, not to the phase count
`PHASES = 3` as the claim states. -/
theorem night_exit_reseed_cex :
    (⟨7, 2, true⟩ : CadState).night = true ∧
    NIGHT_MODE_OFF_THRESH < 17 ∧
    (nightUpdate ⟨7, 2, true⟩ 17).night = false ∧
    (nightUpdate ⟨7, 2, true⟩ 17).frameTotal = 4 ∧
    4 ≠ PHASES := by
  norm_num [nightUpdate, NIGHT_MODE_ON_THRESH, NIGHT_MODE_OFF_THRESH, PHASES]

/-- Claim C8 (amended): on every NIGHT on-to-off transition the cadence
state is re-seeded with `avgTime = 1/2` and the lap counter folded to
`frameTotal % PHASES + PHASES` — a value in `[PHASES, 2*PHASES)` that
equals `PHASES` exactly when the old counter was a multiple of `PHASES`. -/
theorem night_exit_reseed (s : CadState) (luma : ℚ) (hn : s.night = true)
    (hl : NIGHT_MODE_OFF_THRESH < luma) :
    (nightUpdate s luma).night = false ∧
    (nightUpdate s luma).frameTotal = s.frameTotal % PHASES + PHASES ∧
    (nightUpdate s luma).avgTime = 1/2 ∧
    PHASES ≤ (nightUpdate s luma).frameTotal ∧
    (nightUpdate s luma).frameTotal < 2 * PHASES ∧
    ((nightUpdate s luma).frameTotal = PHASES ↔ s.frameTotal % PHASES = 0) := by
  have h1 : ¬(luma < NIGHT_MODE_ON_THRESH ∧ s.night = false) := by simp [hn]
  unfold nightUpdate
  rw [if_neg h1, if_pos ⟨hl, hn⟩]
  have hm : s.frameTotal % PHASES < PHASES :=
    Nat.mod_lt _ (by norm_num [PHASES])
  refine ⟨rfl, rfl, rfl, ?_, ?_, ?_⟩
  · show PHASES ≤ s.frameTotal % PHASES + PHASES
    omega
  · show s.frameTotal % PHASES + PHASES < 2 * PHASES
    omega
  · show s.frameTotal % PHASES + PHASES = PHASES ↔ s.frameTotal % PHASES = 0
    omega

/-- Witness for C8 (amended) at `frameTotal = 6`, luma 20. -/
theorem night_exit_reseed_witness :
    (⟨6, 2, true⟩ : CadState).night = true ∧
    NIGHT_MODE_OFF_THRESH < 20 ∧
    (nightUpdate ⟨6, 2, true⟩ 20).frameTotal = 6 % PHASES + PHASES :=
  ⟨rfl, by norm_num [NIGHT_MODE_OFF_THRESH],
    (night_exit_reseed ⟨6, 2, true⟩ 20 rfl (by norm_num [NIGHT_MODE_OFF_THRESH])).2.1⟩

/-- Counterexample to C9: a warm-up cycle (`frameTotal = 0 < PHASES`)
with NIGHT active sleeps only the fixed warm-up interval; the night-mode
slowdown delay is not added. -/
theorem night_slowdown_cex :
    0 < PHASES ∧
    cycleSleeps 0 true 1 1 = [WARMUP_SLEEP] ∧
    NIGHT_MODE_FRAME_SLOWDOWN ∉ cycleSleeps 0 true 1 1 := by
  norm_num [cycleSleeps, PHASES, WARMUP_SLEEP, NIGHT_MODE_FRAME_SLOWDOWN]

/-- Claim C9 (amended): the full night-mode slowdown delay is added
unconditionally, after the locked-loop correction, in every STEADY cycle
with NIGHT active; a WARMUP cycle sleeps only the fixed interval even
when NIGHT is active. -/
theorem night_slowdown_amended (frameTotal : ℕ) (avgTime deltaTime : ℚ) :
    (PHASES ≤ frameTotal →
      cycleSleeps frameTotal true avgTime deltaTime =
        correctiveSleeps avgTime deltaTime ++ [NIGHT_MODE_FRAME_SLOWDOWN]) ∧
    (frameTotal < PHASES →
      cycleSleeps frameTotal true avgTime deltaTime = [WARMUP_SLEEP]) := by
  constructor
  · intro h
    unfold cycleSleeps
    rw [if_neg (not_lt.mpr h), if_pos rfl]
  · intro h
    unfold cycleSleeps
    rw [if_pos h]

/-- Witness for C9 (amended) at a steady night cycle. -/
theorem night_slowdown_amended_witness :
    PHASES ≤ 5 ∧
    cycleSleeps 5 true 1 1 =
      correctiveSleeps 1 1 ++ [NIGHT_MODE_FRAME_SLOWDOWN] :=
  ⟨by norm_num [PHASES], (night_slowdown_amended 5 1 1).1 (by norm_num [PHASES])⟩

/-- Failing input for C5: a valid sticky ROI near the right edge of the
downsampled frame (`refX = 480`, `refW = 20`, with
`FILTER_SCALE * (refX + refW) ≤ IM_WIDTH`) yields `searchOffset = 1656`,
so the derived window `[1656, 1656 + 608)` extends 232 pixels past the
frame's right edge: the code clamps only at the left edge
(`max(0, ...)`), contradicting the claimed right-edge clamp
`offset + width ≤ IM_WIDTH` and the function's own docstring promise of
an `IM_HEIGHT x IM_HEIGHT` square crop. -/
theorem crop_window_right_overflow :
    FILTER_SCALE * (480 + 20) ≤ IM_WIDTH ∧
    searchWidth = IM_HEIGHT ∧
    0 ≤ searchOffset 480 20 ∧
    searchOffset 480 20 = 1656 ∧
    IM_WIDTH < searchOffset 480 20 + searchWidth := by
  norm_num [searchOffset, searchWidth, pytrunc, IM_HEIGHT, IM_WIDTH, FILTER_SCALE]

/-- A sub-threshold contour leaves the ROI state unchanged. -/
theorem roiUpdate_sub_threshold (s : RoiState) (c : MContour) (t : ℤ)
    (h : c.area ≤ (focusSensitivity : ℚ)) : roiUpdate s (some c) t = s := by
  show (if (focusSensitivity : ℚ) < c.area then
      ({ refX := c.x, refY := c.y, refW := c.w, refH := c.h,
         lastActiveTime := t } : RoiState) else s) = s
  rw [if_neg (not_lt.mpr h)]

/-- A run of frames whose largest contours are all sub-threshold (or
absent) leaves the ROI state unchanged. -/
theorem roiRun_sub_threshold (l : List (Option MContour × ℤ)) :
    ∀ s : RoiState,
      (∀ p ∈ l, ∀ d : MContour, p.1 = some d → d.area ≤ (focusSensitivity : ℚ)) →
      roiRun s l = s := by
  induction l with
  | nil => intro s _; rfl
  | cons p t ih =>
      intro s hl
      obtain ⟨c1, t1⟩ := p
      have hp : roiUpdate s c1 t1 = s := by
        cases c1 with
        | none => rfl
        | some d =>
            exact roiUpdate_sub_threshold s d t1
              (hl (some d, t1) (List.mem_cons_self _ _) d rfl)
      show roiRun (roiUpdate s c1 t1) t = s
      rw [hp]
      exact ih s (fun q hq d hd => hl q (List.mem_cons_of_mem _ hq) d hd)

/-- Claim C6: a frame whose largest motion contour has area not
exceeding `focusSensitivity` (or no contour at all) leaves the sticky
ROI and its last-active timestamp unchanged, and any run of such frames
keeps the crop window anchored where the last motion event put it. -/
theorem sticky_roi (s : RoiState) (c : MContour) (now : ℤ)
    (l : List (Option MContour × ℤ))
    (hc : c.area ≤ (focusSensitivity : ℚ))
    (hl : ∀ p ∈ l, ∀ d : MContour, p.1 = some d → d.area ≤ (focusSensitivity : ℚ)) :
    roiUpdate s (some c) now = s ∧
    roiRun s l = s ∧
    searchOffset (roiRun s l).refX (roiRun s l).refW =
      searchOffset s.refX s.refW := by
  have hrun : roiRun s l = s := roiRun_sub_threshold l s hl
  exact ⟨roiUpdate_sub_threshold s c now hc, hrun, by rw [hrun]⟩

/-- Witness for C6: a sub-threshold contour (area 100 ≤ 787) and a run of
two sub-threshold frames leave the ROI at its previous position. -/
theorem sticky_roi_witness :
    (⟨(100:ℚ), 1, 2, 3, 4⟩ : MContour).area ≤ (focusSensitivity : ℚ) ∧
    roiRun ⟨10, 0, 20, 5, 0⟩ [(some ⟨50, 0, 0, 0, 0⟩, 9), (none, 11)] =
      ⟨10, 0, 20, 5, 0⟩ :=
  ⟨by norm_num [focusSensitivity_eq],
    (sticky_roi ⟨10, 0, 20, 5, 0⟩ ⟨100, 1, 2, 3, 4⟩ 7
      [(some ⟨50, 0, 0, 0, 0⟩, 9), (none, 11)]
      (by norm_num [focusSensitivity_eq])
      (by
        intro p hp d hd
        rcases List.mem_cons.mp hp with h | h2
        · rw [h] at hd
          have hd2 : (⟨50, 0, 0, 0, 0⟩ : MContour) = d := by
            injection hd
          rw [← hd2]
          norm_num [focusSensitivity_eq]
        · rcases List.mem_cons.mp h2 with h | h
          · rw [h] at hd
            exact absurd hd (by simp)
          · exact absurd h (List.not_mem_nil p))).2.1⟩

/-- Failing input for C7: a throttled cat-only detection with
`dogImageCount = 5`, `catImageCount = 7`: the archived file name carries
the dog counter value 5 (`Cat_5.jpg`), not the cat counter value 7, even
though it is the cat counter that is then incremented to 8. -/
theorem archive_uses_dog_counter_for_cat :
    ¬(TIME_BETWEEN_MESSAGES * 1 < (10:ℚ) - (⟨0, 0, 0, 5, 7⟩ : AggState).imageLastSent) ∧
    (aggStep 1 10 true false false ⟨0, 0, 0, 5, 7⟩).2.archived = some ("Cat", 5) ∧
    (aggStep 1 10 true false false ⟨0, 0, 0, 5, 7⟩).1.catImageCount = 8 ∧
    (aggStep 1 10 true false false ⟨0, 0, 0, 5, 7⟩).1.dogImageCount = 5 ∧
    (5:ℕ) ≠ 7 := by
  norm_num [aggStep, messageObject, TIME_BETWEEN_MESSAGES]

/-- Claim C10: the manual-capture branch dispatches its notification
exactly when `imageCapture` is set, for every aggregator state (so
regardless of the cooldown timestamp), and the flag has no effect on the
resulting state (in particular `imageLastSent`) nor on the
detection-triggered dispatch decision. -/
theorem manual_capture_bypasses_throttle (freq now : ℚ) (cat dog ic : Bool)
    (s : AggState) :
    (aggStep freq now cat dog true s).2.manualDispatched = true ∧
    (aggStep freq now cat dog false s).2.manualDispatched = false ∧
    (aggStep freq now cat dog ic s).1 = (aggStep freq now cat dog false s).1 ∧
    (aggStep freq now cat dog ic s).2.dispatched =
      (aggStep freq now cat dog false s).2.dispatched := by
  refine ⟨?_, ?_, ?_, ?_⟩ <;> unfold aggStep <;> split_ifs <;> rfl

/-- On a qualifying frame the aggregator dispatches (and starts the
sprinkler thread) exactly when the elapsed ticks since `imageLastSent`
strictly exceed `TIME_BETWEEN_MESSAGES * freq`; on dispatch the
timestamp is set to the current tick, and a throttled frame leaves it
unchanged. -/
theorem aggStep_dispatch_iff (freq t : ℚ) (c d i : Bool) (s : AggState)
    (hcd : (c || d) = true) :
    ((aggStep freq t c d i s).2.dispatched = true ↔
      TIME_BETWEEN_MESSAGES * freq < t - s.imageLastSent) ∧
    (aggStep freq t c d i s).2.sprinkler = (aggStep freq t c d i s).2.dispatched ∧
    ((aggStep freq t c d i s).2.dispatched = true →
      (aggStep freq t c d i s).1.imageLastSent = t) ∧
    ((aggStep freq t c d i s).2.dispatched = false →
      (aggStep freq t c d i s).1.imageLastSent = s.imageLastSent) := by
  unfold aggStep
  rw [if_pos hcd]
  split_ifs with hcool hdog <;> simp_all

/-- Claim C1: on every qualifying frame the aggregator dispatches the
notification (and triggers the sprinkler) iff the ticks elapsed since
`imageLastSent` strictly exceed the cooldown `TIME_BETWEEN_MESSAGES * freq`,
recording the dispatch time on dispatch; consequently, from a state whose
first qualifying detection passes the cooldown, a second qualifying
detection less than the cooldown later does not dispatch (exactly one
dispatch), while one more than the cooldown later dispatches as well. -/
theorem notification_throttle (freq t1 t2 : ℚ) (s0 : AggState)
    (cat1 dog1 cat2 dog2 ic1 ic2 : Bool)
    (h1 : (cat1 || dog1) = true) (h2 : (cat2 || dog2) = true)
    (hfirst : TIME_BETWEEN_MESSAGES * freq < t1 - s0.imageLastSent) :
    (∀ (c d i : Bool) (t : ℚ) (s : AggState), (c || d) = true →
      (((aggStep freq t c d i s).2.dispatched = true ↔
          TIME_BETWEEN_MESSAGES * freq < t - s.imageLastSent) ∧
        (aggStep freq t c d i s).2.sprinkler = (aggStep freq t c d i s).2.dispatched ∧
        ((aggStep freq t c d i s).2.dispatched = true →
          (aggStep freq t c d i s).1.imageLastSent = t))) ∧
    (aggStep freq t1 cat1 dog1 ic1 s0).2.dispatched = true ∧
    (t2 - t1 < TIME_BETWEEN_MESSAGES * freq →
      (aggStep freq t2 cat2 dog2 ic2
        (aggStep freq t1 cat1 dog1 ic1 s0).1).2.dispatched = false) ∧
    (TIME_BETWEEN_MESSAGES * freq < t2 - t1 →
      (aggStep freq t2 cat2 dog2 ic2
        (aggStep freq t1 cat1 dog1 ic1 s0).1).2.dispatched = true) := by
  have key := fun (c d i : Bool) (t : ℚ) (s : AggState) (h : (c || d) = true) =>
    aggStep_dispatch_iff freq t c d i s h
  have hd1 : (aggStep freq t1 cat1 dog1 ic1 s0).2.dispatched = true :=
    ((key cat1 dog1 ic1 t1 s0 h1).1).mpr hfirst
  have hs1 : (aggStep freq t1 cat1 dog1 ic1 s0).1.imageLastSent = t1 :=
    (key cat1 dog1 ic1 t1 s0 h1).2.2.1 hd1
  refine ⟨fun c d i t s h =>
    ⟨(key c d i t s h).1, (key c d i t s h).2.1, (key c d i t s h).2.2.1⟩,
    hd1, ?_, ?_⟩
  · intro hlt
    have hiff := (key cat2 dog2 ic2 t2 (aggStep freq t1 cat1 dog1 ic1 s0).1 h2).1
    rw [hs1] at hiff
    rcases hb : (aggStep freq t2 cat2 dog2 ic2
        (aggStep freq t1 cat1 dog1 ic1 s0).1).2.dispatched with _ | _
    · rfl
    · exact absurd (hiff.mp hb) (by linarith)
  · intro hgt
    have hiff := (key cat2 dog2 ic2 t2 (aggStep freq t1 cat1 dog1 ic1 s0).1 h2).1
    rw [hs1] at hiff
    exact hiff.mpr hgt

/-- Witness for C1: `freq = 1`, initial state, first qualifying
detection at tick 31 dispatches; a second at tick 40 (9 < 30 ticks
later) is throttled. -/
theorem notification_throttle_witness :
    ((true || false) = true) ∧
    (TIME_BETWEEN_MESSAGES * 1 < (31:ℚ) - (aggInit 1).imageLastSent) ∧
    (aggStep 1 31 true false false (aggInit 1)).2.dispatched = true ∧
    ((40:ℚ) - 31 < TIME_BETWEEN_MESSAGES * 1 →
      (aggStep 1 40 true false false
        (aggStep 1 31 true false false (aggInit 1)).1).2.dispatched = false) := by
  refine ⟨rfl, by norm_num [TIME_BETWEEN_MESSAGES, aggInit], ?_, ?_⟩
  · exact (notification_throttle 1 31 40 (aggInit 1) true false true false
      false false rfl rfl
      (by norm_num [TIME_BETWEEN_MESSAGES, aggInit])).2.1
  · exact (notification_throttle 1 31 40 (aggInit 1) true false true false
      false false rfl rfl
      (by norm_num [TIME_BETWEEN_MESSAGES, aggInit])).2.2.1

/-- On a never-advancing heartbeat, the first 34 ticks all pet without
shifting the snapshots, so the loop state before tick `t` is
`(-1, -1, t + 1)` for `t ≤ 34`. -/
theorem wdRun_const0_early : ∀ t : ℕ, t ≤ 34 →
    wdRun constHeartbeat t = ⟨-1, -1, t + 1⟩ := by
  intro t
  induction t with
  | zero => intro _; rfl
  | succ n ih =>
      intro h
      show (wdStep (constHeartbeat n) (wdRun constHeartbeat n)).1 = _
      rw [ih (by omega)]
      dsimp only [wdStep, constHeartbeat]
      have hne : ¬(n + 1 + 1) % 36 = 0 := by omega
      norm_num [wdK_eq, hne]

/-- Tick 34 brings the pet counter to 36 and shifts the snapshots. -/
theorem wdRun_const0_35 : wdRun constHeartbeat 35 = ⟨-1, 0, 36⟩ := by
  show (wdStep (constHeartbeat 34) (wdRun constHeartbeat 34)).1 = _
  rw [wdRun_const0_early 34 (by omega)]
  unfold wdStep constHeartbeat
  norm_num [wdK_eq]

/-- State before tick 36 on the constant heartbeat. -/
theorem wdRun_const0_36 : wdRun constHeartbeat 36 = ⟨-1, 0, 37⟩ := by
  show (wdStep (constHeartbeat 35) (wdRun constHeartbeat 35)).1 = _
  rw [wdRun_const0_35]
  unfold wdStep constHeartbeat
  norm_num [wdK_eq]

/-- Counterexample to C2: on a heartbeat frozen at 0 forever, the counter
at tick 36 equals its value `wdK = 36` ticks prior, yet the monitor still
pets at tick 36 — the pet condition is not "counter changed within the
last K ticks", because the snapshot shift is driven by the pet counter
(which advances only on petting ticks), not by a tick count. -/
theorem wd_pet_window_cex :
    wdK = 36 ∧
    constHeartbeat 36 = constHeartbeat (36 - wdK) ∧
    wdPet constHeartbeat 36 = true := by
  refine ⟨wdK_eq, rfl, ?_⟩
  unfold wdPet
  rw [wdRun_const0_36]
  unfold wdStep constHeartbeat
  norm_num

/-- Case analysis of one watchdog tick: it pets or not (counter vs the
older snapshot), and shifts the snapshots or not (pet counter at a
multiple of `wdK`), giving four outcomes with their guard conditions. -/
theorem wdStep_cases (ka : ℤ) (s : WdState) :
    (ka = s.lastKA ∧ s.petCounter % wdK = 0 ∧
      (wdStep ka s).1 = ⟨s.bufKA, ka, s.petCounter⟩) ∨
    (ka = s.lastKA ∧ ¬ s.petCounter % wdK = 0 ∧
      (wdStep ka s).1 = ⟨s.lastKA, s.bufKA, s.petCounter⟩) ∨
    (¬ ka = s.lastKA ∧ (s.petCounter + 1) % wdK = 0 ∧
      (wdStep ka s).1 = ⟨s.bufKA, ka, s.petCounter + 1⟩) ∨
    (¬ ka = s.lastKA ∧ ¬ (s.petCounter + 1) % wdK = 0 ∧
      (wdStep ka s).1 = ⟨s.lastKA, s.bufKA, s.petCounter + 1⟩) := by
  by_cases hpet : ka = s.lastKA
  · by_cases hsh : s.petCounter % wdK = 0
    · exact Or.inl ⟨hpet, hsh, by simp [wdStep, hpet, hsh]⟩
    · exact Or.inr (Or.inl ⟨hpet, hsh, by simp [wdStep, hpet, hsh]⟩)
  · by_cases hsh : (s.petCounter + 1) % wdK = 0
    · exact Or.inr (Or.inr (Or.inl ⟨hpet, hsh, by simp [wdStep, hpet, hsh]⟩))
    · exact Or.inr (Or.inr (Or.inr ⟨hpet, hsh, by simp [wdStep, hpet, hsh]⟩))

/-- Claim C2 (amended): the monitor pets at tick `t` iff the heartbeat
counter differs from the older buffered snapshot; the snapshot shift is
driven by the pet counter — which advances only on petting ticks —
reaching a multiple of `wdK`, not by a strict every-`wdK`-ticks
schedule, so a frozen heartbeat can still be petted at a tick where the
counter equals its value `wdK` ticks prior. The protective clause of the
claim survives: for the monotone heartbeat counter, the monitor pets at
every tick at which the counter has advanced within the preceding `wdK`
ticks — a heartbeat frozen for fewer than `wdK` ticks never starves a
pet. -/
theorem wd_pet_amended (hb : ℕ → ℤ) (h0 : 0 ≤ hb 0)
    (hmono : ∀ t, hb t ≤ hb (t + 1)) :
    (∀ (g : ℕ → ℤ) (t : ℕ), wdPet g t = true ↔ g t ≠ (wdRun g t).lastKA) ∧
    (∀ t : ℕ, hb (t - wdK) < hb t → wdPet hb t = true) := by
  have hiff : ∀ (g : ℕ → ℤ) (t : ℕ),
      wdPet g t = true ↔ g t ≠ (wdRun g t).lastKA := by
    intro g t
    unfold wdPet wdStep
    simp
  have hK := wdK_eq
  have hm : Monotone hb := monotone_nat_of_le_succ hmono
  have inv : ∀ t : ℕ,
      (wdRun hb t).bufKA ≤ hb (t - (wdRun hb t).petCounter % 36) ∧
      (wdRun hb t).lastKA ≤ hb (t - (wdRun hb t).petCounter % 36 - 36) := by
    intro t
    induction t with
    | zero =>
        constructor
        · show (-1 : ℤ) ≤ hb (0 - 1 % 36)
          have he : (0 : ℕ) - 1 % 36 = 0 := by omega
          rw [he]
          linarith
        · show (-1 : ℤ) ≤ hb (0 - 1 % 36 - 36)
          have he : (0 : ℕ) - 1 % 36 - 36 = 0 := by omega
          rw [he]
          linarith
    | succ n ih =>
        have hstep : wdRun hb (n + 1) = (wdStep (hb n) (wdRun hb n)).1 := rfl
        rcases wdStep_cases (hb n) (wdRun hb n) with
          ⟨hpet, hsh, heq⟩ | ⟨hpet, hsh, heq⟩ | ⟨hpet, hsh, heq⟩ | ⟨hpet, hsh, heq⟩ <;>
          rw [wdK_eq] at hsh <;> rw [hstep, heq]
        · -- no pet, shift: state ⟨bufKA, hb n, pc⟩ with pc % 36 = 0
          have hfr : hb (n - 36) = hb n := by
            have h1 : (wdRun hb n).lastKA ≤ hb (n - 36) := by
              have h2 := ih.2
              rw [hsh] at h2
              simpa using h2
            have h2 : hb (n - 36) ≤ hb n := hm (by omega)
            omega
          constructor
          · show hb n ≤ hb (n + 1 - (wdRun hb n).petCounter % 36)
            exact hm (by omega)
          · show (wdRun hb n).bufKA ≤ hb (n + 1 - (wdRun hb n).petCounter % 36 - 36)
            have hbuf : (wdRun hb n).bufKA ≤ hb n := by
              have h2 := ih.1
              rw [hsh] at h2
              simpa using h2
            calc (wdRun hb n).bufKA ≤ hb n := hbuf
              _ = hb (n - 36) := hfr.symm
              _ ≤ hb (n + 1 - (wdRun hb n).petCounter % 36 - 36) := hm (by omega)
        · -- no pet, no shift: state ⟨lastKA, bufKA, pc⟩
          constructor
          · show (wdRun hb n).bufKA ≤ hb (n + 1 - (wdRun hb n).petCounter % 36)
            exact le_trans ih.1 (hm (by omega))
          · show (wdRun hb n).lastKA ≤ hb (n + 1 - (wdRun hb n).petCounter % 36 - 36)
            exact le_trans ih.2 (hm (by omega))
        · -- pet, shift: state ⟨bufKA, hb n, pc + 1⟩ with (pc + 1) % 36 = 0
          constructor
          · show hb n ≤ hb (n + 1 - ((wdRun hb n).petCounter + 1) % 36)
            exact hm (by omega)
          · show (wdRun hb n).bufKA ≤
              hb (n + 1 - ((wdRun hb n).petCounter + 1) % 36 - 36)
            have he : n + 1 - ((wdRun hb n).petCounter + 1) % 36 - 36 =
                n - (wdRun hb n).petCounter % 36 := by omega
            rw [he]
            exact ih.1
        · -- pet, no shift: state ⟨lastKA, bufKA, pc + 1⟩
          constructor
          · show (wdRun hb n).bufKA ≤
              hb (n + 1 - ((wdRun hb n).petCounter + 1) % 36)
            have he : n + 1 - ((wdRun hb n).petCounter + 1) % 36 =
                n - (wdRun hb n).petCounter % 36 := by omega
            rw [he]
            exact ih.1
          · show (wdRun hb n).lastKA ≤
              hb (n + 1 - ((wdRun hb n).petCounter + 1) % 36 - 36)
            have he : n + 1 - ((wdRun hb n).petCounter + 1) % 36 - 36 =
                n - (wdRun hb n).petCounter % 36 - 36 := by omega
            rw [he]
            exact ih.2
  refine ⟨hiff, ?_⟩
  intro t hlt
  rw [wdK_eq] at hlt
  refine (hiff hb t).mpr ?_
  have h1 : (wdRun hb t).lastKA ≤ hb (t - 36) :=
    le_trans (inv t).2 (hm (by omega))
  exact ne_of_gt (lt_of_le_of_lt h1 hlt)

/-- Witness for C2 (amended): the identity heartbeat is monotone, has
advanced within the window before tick 3, and is petted at tick 3. -/
theorem wd_pet_amended_witness :
    (0 : ℤ) ≤ (fun t : ℕ => (t : ℤ)) 0 ∧
    (fun t : ℕ => (t : ℤ)) (3 - wdK) < (fun t : ℕ => (t : ℤ)) 3 ∧
    wdPet (fun t : ℕ => (t : ℤ)) 3 = true := by
  refine ⟨le_refl 0, ?_, ?_⟩
  · show ((3 - wdK : ℕ) : ℤ) < ((3 : ℕ) : ℤ)
    rw [wdK_eq]
    norm_num
  · exact (wd_pet_amended (fun t : ℕ => (t : ℤ)) (le_refl 0)
      (fun t => by
        show (t : ℤ) ≤ ((t + 1 : ℕ) : ℤ)
        push_cast
        omega)).2 3
      (by
        show ((3 - wdK : ℕ) : ℤ) < ((3 : ℕ) : ℤ)
        rw [wdK_eq]
        norm_num)

end DogDetect
